import Mathlib

/-!
Verification of the listing store and listing query service of the
`nawy-shares-` repository (a Next.js property-listing app backed by
MongoDB/mongoose).

The embedding translates:
* `src/lib/modals/listing.modal.ts` — the mongoose `listingSchema`
  (13 declared fields, no `timestamps` option, `unitName` and
  `unitNumber` marked unique);
* the create route (`POST` handler colocated with the search page) —
  duplicate `unitName` check, then duplicate `unitNumber` check, then
  `Listing.create` of the 13 fields;
* `src/app/api/listing/update/route.ts` — `findByIdAndUpdate` with a
  `$set` of the same 13 fields, 404 when no document matches;
* the query route (`POST`, fetch listings) — filter by `userId`,
  `listingId` and a `searchTerm` that is dispatched numerically
  (`!isNaN(Number(term.trim()))` → exact `unitNumber` match) or
  textually (`$regex: term.trim().toLowerCase(), $options: 'i'` on
  `projectName` or `unitName`), sorted by `updatedAt`
  (`order === 'asc' ? 1 : -1`), then `.skip(parseInt(startIndex) || 0)`
  and `.limit(parseInt(limit) || 9)`.

A MongoDB collection is modelled as a `List Listing`.  Because the
schema declares neither `updatedAt` nor `userId` and mongoose (strict
mode, the default) only persists declared paths, stored documents carry
those two paths as `Option` values that the routes never set; sorting
treats a missing `updatedAt` the way MongoDB treats a missing sort key
(null, ordered before every number).

JavaScript string primitives used by the routes are modelled on
`List Char`: `trim`, `toLowerCase` (ASCII case mapping), the
`Number(...)` numeric-string recognizer (decimal/hex/binary/octal/
exponent/Infinity forms; the numeric *value* is modelled only for
optional-sign decimal integer literals, the form the UI produces —
a numeric term whose value is outside that fragment matches no integer
`unitNumber`), and a regex matcher for the fragment the theorems
exercise: literal characters and the `.` wildcard, matched
case-insensitively as `$options: 'i'` does.
-/

/-- A persisted listing document.  The 13 fields of `listingSchema` plus
the mongoose-generated `_id`.  `userId` and `updatedAt` are paths the
query route references but the schema does not declare: under strict
mode they are never persisted, so they are `Option`s that every write
path leaves at `none`. -/
structure Listing where
  _id : Nat
  projectName : String
  unitName : String
  unitNumber : Int
  description : String
  address : String
  sell : Bool
  rent : Bool
  parkingSpot : Bool
  furnished : Bool
  offer : Bool
  beds : Int
  baths : Int
  regularPrice : Int
  userId : Option String
  updatedAt : Option Nat
deriving Repr, DecidableEq

/-- The request body of the create route / the `$set` document of the
update route: the 13 schema fields as supplied by the caller. -/
structure ListingInput where
  projectName : String
  unitName : String
  unitNumber : Int
  description : String
  address : String
  sell : Bool
  rent : Bool
  parkingSpot : Bool
  furnished : Bool
  offer : Bool
  beds : Int
  baths : Int
  regularPrice : Int
deriving Repr, DecidableEq

/-- Outcome of the create route: the new `_id` on success, or one of the
two duplicate errors (HTTP 400 with the corresponding message). -/
inductive CreateResult where
  | ok (id : Nat)
  | duplicateUnitName
  | duplicateUnitNumber
deriving Repr, DecidableEq

/-- Outcome of the update route: the `_id` on success, or the 404
`Listing not found` response. -/
inductive UpdateResult where
  | ok (id : Nat)
  | notFound
deriving Repr, DecidableEq

/-- The document `Listing.create` persists for input `c`: the 13
supplied fields, the driver-assigned `_id`, and no `userId`/`updatedAt`
path (the schema declares neither; there is no `timestamps` option). -/
def ListingInput.toDoc (c : ListingInput) (newId : Nat) : Listing :=
  { _id := newId
    projectName := c.projectName
    unitName := c.unitName
    unitNumber := c.unitNumber
    description := c.description
    address := c.address
    sell := c.sell
    rent := c.rent
    parkingSpot := c.parkingSpot
    furnished := c.furnished
    offer := c.offer
    beds := c.beds
    baths := c.baths
    regularPrice := c.regularPrice
    userId := none
    updatedAt := none }

/-- The create route.  `findOne({unitName})` probe first, then
`findOne({unitNumber})`, then `Listing.create`; `newId` stands for the
ObjectId mongoose generates.  Returns the collection after the call and
the HTTP outcome. -/
def createRoute (store : List Listing) (newId : Nat) (c : ListingInput) :
    List Listing × CreateResult :=
  if store.any (fun l => l.unitName == c.unitName) then
    (store, CreateResult.duplicateUnitName)
  else if store.any (fun l => l.unitNumber == c.unitNumber) then
    (store, CreateResult.duplicateUnitNumber)
  else
    (store ++ [c.toDoc newId], CreateResult.ok newId)

/-- `$set` of the 13 schema fields on an existing document, as
`findByIdAndUpdate` applies it.  `_id` is untouched; `userId` and
`updatedAt` are not in the `$set` document and the schema has no
`timestamps` option, so they are untouched as well. -/
def setFields (f : ListingInput) (l : Listing) : Listing :=
  { l with
    projectName := f.projectName
    unitName := f.unitName
    unitNumber := f.unitNumber
    description := f.description
    address := f.address
    sell := f.sell
    rent := f.rent
    parkingSpot := f.parkingSpot
    furnished := f.furnished
    offer := f.offer
    beds := f.beds
    baths := f.baths
    regularPrice := f.regularPrice }

/-- The update route.  `findByIdAndUpdate(listingId, {$set: …})`
updates the document whose `_id` matches, or answers 404 when none
does.  Returns the collection after the call and the HTTP outcome. -/
def updateRoute (store : List Listing) (id : Nat) (f : ListingInput) :
    List Listing × UpdateResult :=
  if store.any (fun l => l._id == id) then
    (store.map (fun l => if l._id == id then setFields f l else l),
     UpdateResult.ok id)
  else
    (store, UpdateResult.notFound)

/-- JavaScript `String.prototype.trim()` on the ASCII whitespace the
route's inputs use: drop whitespace from both ends. -/
def jsTrim (s : String) : String :=
  ⟨((s.data.dropWhile Char.isWhitespace).reverse.dropWhile
      Char.isWhitespace).reverse⟩

/-- JavaScript `String.prototype.toLowerCase()` restricted to ASCII
case mapping. -/
def jsToLower (s : String) : String :=
  ⟨s.data.map Char.toLower⟩

/-- Decimal-digit run: nonempty and all `0`-`9`. -/
def allDigits (l : List Char) : Bool :=
  !l.isEmpty && l.all Char.isDigit

/-- Value of a decimal-digit run. -/
def digitsToNat (l : List Char) : Nat :=
  l.foldl (fun a c => 10 * a + (c.toNat - 48)) 0

/-- Exponent part of a JS numeric literal: empty, or `e`/`E` followed by
an optionally signed digit run. -/
def jsExpPart (l : List Char) : Bool :=
  match l with
  | [] => true
  | 'e' :: r =>
      (match r with
       | '+' :: d => allDigits d
       | '-' :: d => allDigits d
       | d => allDigits d)
  | 'E' :: r =>
      (match r with
       | '+' :: d => allDigits d
       | '-' :: d => allDigits d
       | d => allDigits d)
  | _ => false

/-- Unsigned JS decimal literal: `digits [. digits?] [exp]` or
`. digits [exp]`, or `Infinity`. -/
def jsUnsignedDec (l : List Char) : Bool :=
  if l == "Infinity".data then true
  else
    let intPart := l.takeWhile Char.isDigit
    let rest := l.dropWhile Char.isDigit
    match rest with
    | [] => !intPart.isEmpty
    | '.' :: r2 =>
        let fracPart := r2.takeWhile Char.isDigit
        let r3 := r2.dropWhile Char.isDigit
        (!intPart.isEmpty || !fracPart.isEmpty) && jsExpPart r3
    | _ => !intPart.isEmpty && jsExpPart rest

/-- Signed JS decimal literal: an optional leading sign, then an
unsigned literal. -/
def jsSignedDec (l : List Char) : Bool :=
  match l with
  | [] => jsUnsignedDec []
  | c :: r =>
      if c == '+' then jsUnsignedDec r
      else if c == '-' then jsUnsignedDec r
      else jsUnsignedDec (c :: r)

/-- Hexadecimal digit. -/
def isHexDigitChar (c : Char) : Bool :=
  c.isDigit || ('a' ≤ c && c ≤ 'f') || ('A' ≤ c && c ≤ 'F')

/-- Hex / binary / octal JS integer literals (`0x…`, `0b…`, `0o…`). -/
def jsRadixLit (l : List Char) : Bool :=
  match l with
  | '0' :: 'x' :: r => !r.isEmpty && r.all isHexDigitChar
  | '0' :: 'X' :: r => !r.isEmpty && r.all isHexDigitChar
  | '0' :: 'b' :: r => !r.isEmpty && r.all (fun c => c == '0' || c == '1')
  | '0' :: 'B' :: r => !r.isEmpty && r.all (fun c => c == '0' || c == '1')
  | '0' :: 'o' :: r => !r.isEmpty && r.all (fun c => '0' ≤ c && c ≤ '7')
  | '0' :: 'O' :: r => !r.isEmpty && r.all (fun c => '0' ≤ c && c ≤ '7')
  | _ => false

/-- `!isNaN(Number(s))` for an already-trimmed string `s`: the empty
string (`Number("") = 0`) or a JS numeric literal. -/
def jsIsNumericString (l : List Char) : Bool :=
  l.isEmpty || jsSignedDec l || jsRadixLit l

/-- `Number(s)` on the optional-sign decimal *integer* fragment — the
form the UI's unit-number input produces.  `none` for every other
string; a numeric string outside this fragment denotes a non-integer
(or model-external) value that equals no stored integer `unitNumber`. -/
def jsIntVal (l : List Char) : Option Int :=
  match l with
  | [] => none
  | c :: r =>
      if c == '+' then
        (if allDigits r then some (digitsToNat r : Int) else none)
      else if c == '-' then
        (if allDigits r then some (-(digitsToNat r : Int)) else none)
      else
        (if allDigits (c :: r) then some (digitsToNat (c :: r) : Int) else none)

/-- One regex pattern character against one subject character, under
`$options: 'i'`: the wildcard `.` matches anything, a literal matches
up to ASCII case.  The route feeds the matcher an already-lowercased
pattern (`term.trim().toLowerCase()`), so case-insensitivity is
lowering the subject character. -/
def regexCharMatch (p c : Char) : Bool :=
  p == '.' || p == c.toLower

/-- The pattern (literals and `.` wildcards) matches a prefix of the
subject. -/
def regexMatchesPrefix : List Char → List Char → Bool
  | [], _ => true
  | _ :: _, [] => false
  | p :: ps, c :: cs => regexCharMatch p c && regexMatchesPrefix ps cs

/-- Unanchored regex search, as `$regex` performs: the pattern matches
at some position of the subject. -/
def regexFindIn (pat : List Char) : List Char → Bool
  | [] => regexMatchesPrefix pat []
  | c :: cs => regexMatchesPrefix pat (c :: cs) || regexFindIn pat cs

/-- Literal (non-regex) substring occurrence. -/
def substrFindIn (needle : List Char) : List Char → Bool
  | [] => needle.isPrefixOf []
  | c :: cs => needle.isPrefixOf (c :: cs) || substrFindIn needle cs

/-- Case-insensitive literal substring containment — the spec's reading
of the text filter ("contains the term as a case-insensitive
substring"). -/
def containsCI (needle hay : String) : Bool :=
  substrFindIn (jsToLower needle).data (jsToLower hay).data

/-- Characters with a special meaning in a regular expression; a term
avoiding all of them is matched literally by `$regex`. -/
def regexMetaChars : List Char :=
  ['.', '*', '+', '?', '^', '$', '(', ')', '[', ']', '\x7b', '\x7d',
   '|', '\\']

/-- The request body of the query route. -/
structure QueryInput where
  userId : Option String
  listingId : Option Nat
  searchTerm : Option String
  startIndex : Option Nat
  limit : Option Nat
  order : Option String
deriving Repr, DecidableEq

/-- The query with every field absent. -/
def emptyQuery : QueryInput :=
  ⟨none, none, none, none, none, none⟩

/-- `…(data.userId && { userId: data.userId })`: filter only when
`userId` is present and truthy (non-empty). -/
def userCond (q : QueryInput) (l : Listing) : Bool :=
  match q.userId with
  | none => true
  | some u => if u == "" then true else l.userId == some u

/-- `…(data.listingId && { _id: data.listingId })`. -/
def listingIdCond (q : QueryInput) (l : Listing) : Bool :=
  match q.listingId with
  | none => true
  | some i => l._id == i

/-- The `$or` search filter for a trimmed, non-empty term `t`:
numeric dispatch (`!isNaN(Number(t))`) → `{ unitNumber: Number(t) }`;
otherwise `{ projectName: {$regex: t.toLowerCase(), $options: 'i'} }`
or the same on `unitName`. -/
def textFilter (t : String) (l : Listing) : Bool :=
  if jsIsNumericString t.data then
    match jsIntVal t.data with
    | some n => l.unitNumber == n
    | none => false
  else
    regexFindIn (jsToLower t).data l.projectName.data
      || regexFindIn (jsToLower t).data l.unitName.data

/-- `…(data.searchTerm?.trim() && { $or: … })`: no filter when the term
is absent or trims to the empty string. -/
def searchCond (q : QueryInput) (l : Listing) : Bool :=
  match q.searchTerm with
  | none => true
  | some s => if jsTrim s == "" then true else textFilter (jsTrim s) l

/-- Conjunction of the three filters, as the single `find` document
combines them. -/
def matchesQuery (q : QueryInput) (l : Listing) : Bool :=
  userCond q l && listingIdCond q l && searchCond q l

/-- MongoDB ascending order on the `updatedAt` sort key: a missing key
sorts as null, before every number. -/
def updLe : Option Nat → Option Nat → Bool
  | none, _ => true
  | some _, none => false
  | some a, some b => a ≤ b

/-- `data.order === 'asc' ? 1 : -1`. -/
def isAsc (q : QueryInput) : Bool :=
  q.order == some "asc"

/-- The comparison `.sort({ updatedAt: sortDirection })` sorts by. -/
def sortCmp (asc : Bool) (a b : Listing) : Bool :=
  if asc then updLe a.updatedAt b.updatedAt else updLe b.updatedAt a.updatedAt

/-- `sortCmp` as a relation, for the sort. -/
def sortRel (asc : Bool) (a b : Listing) : Prop :=
  sortCmp asc a b = true

instance (asc : Bool) : DecidableRel (sortRel asc) :=
  fun a b => inferInstanceAs (Decidable (sortCmp asc a b = true))

theorem updLe_total : ∀ (a b : Option Nat), updLe a b = true ∨ updLe b a = true
  | none, _ => Or.inl rfl
  | some _, none => Or.inr rfl
  | some x, some y => by simpa [updLe] using Nat.le_total x y

theorem updLe_trans : ∀ {a b c : Option Nat},
    updLe a b = true → updLe b c = true → updLe a c = true
  | none, _, _, _, _ => rfl
  | some _, none, _, h1, _ => by simp [updLe] at h1
  | some _, some _, none, _, h2 => by simp [updLe] at h2
  | some x, some y, some z, h1, h2 => by
      simp only [updLe, decide_eq_true_eq] at *
      omega

theorem sortCmp_true (a b : Listing) :
    sortCmp true a b = updLe a.updatedAt b.updatedAt := rfl

theorem sortCmp_false (a b : Listing) :
    sortCmp false a b = updLe b.updatedAt a.updatedAt := rfl

instance (asc : Bool) : IsTotal Listing (sortRel asc) := by
  constructor
  intro a b
  unfold sortRel
  cases asc
  · rw [sortCmp_false, sortCmp_false]
    exact updLe_total b.updatedAt a.updatedAt
  · rw [sortCmp_true, sortCmp_true]
    exact updLe_total a.updatedAt b.updatedAt

instance (asc : Bool) : IsTrans Listing (sortRel asc) := by
  constructor
  intro a b c h1 h2
  unfold sortRel at *
  cases asc
  · rw [sortCmp_false] at *
    exact updLe_trans h2 h1
  · rw [sortCmp_true] at *
    exact updLe_trans h1 h2

/-- `parseInt(data.startIndex) || 0`. -/
def effStartIndex (q : QueryInput) : Nat :=
  match q.startIndex with
  | none => 0
  | some n => n

/-- `parseInt(data.limit) || 9`: absent — and a supplied `0`, which is
falsy — both fall back to 9. -/
def effLimit (q : QueryInput) : Nat :=
  match q.limit with
  | none => 9
  | some 0 => 9
  | some (n + 1) => n + 1

/-- The query route:
`Listing.find(filter).sort({updatedAt: dir}).skip(startIndex).limit(limit)`. -/
def runQuery (q : QueryInput) (store : List Listing) : List Listing :=
  ((List.insertionSort (sortRel (isAsc q))
      (store.filter (matchesQuery q))).drop (effStartIndex q)).take (effLimit q)

/-! ### Helper lemmas -/

theorem toLower_ne_dot (c : Char) (h : c ≠ '.') : Char.toLower c ≠ '.' := by
  unfold Char.toLower
  by_cases hc : c.toNat ≥ 65 ∧ c.toNat ≤ 90
  · rw [if_pos hc]
    obtain ⟨h1, h2⟩ := hc
    generalize c.toNat = n at h1 h2
    interval_cases n <;> decide
  · rw [if_neg hc]
    exact h

theorem any_eq_false_of_forall {p : Listing → Bool} {store : List Listing}
    (h : ∀ l ∈ store, p l = false) : store.any p = false := by
  rw [List.any_eq_false]
  intro l hl
  simp [h l hl]

/-! ### Sample data (used by witnesses and counterexamples) -/

/-- A sample create request, as the create form produces. -/
def sampleA : ListingInput :=
  { projectName := "Sunrise Apartments"
    unitName := "Unit A"
    unitNumber := 101
    description := "A spacious 2-bedroom apartment."
    address := "123 Main St"
    sell := true
    rent := false
    parkingSpot := true
    furnished := true
    offer := false
    beds := 2
    baths := 2
    regularPrice := 2000 }

/-- A second sample, differing from `sampleA` in every identifying field. -/
def sampleB : ListingInput :=
  { projectName := "Palm Heights"
    unitName := "Unit B"
    unitNumber := 202
    description := "Cozy studio."
    address := "9 Side Rd"
    sell := false
    rent := true
    parkingSpot := false
    furnished := false
    offer := true
    beds := 1
    baths := 1
    regularPrice := 900 }

/-- Same `unitName` as `sampleA`, different `unitNumber`. -/
def clashName : ListingInput :=
  { sampleB with unitName := "Unit A", unitNumber := 303 }

/-- Same `unitNumber` as `sampleA`, different `unitName`. -/
def clashNumber : ListingInput :=
  { sampleB with unitName := "Unit C", unitNumber := 101 }

/-! ### Claims -/

/-- **C5**: `create` fails with `DuplicateUnitName` whenever a record
with the candidate's `unitName` exists (even if its `unitNumber` also
clashes); otherwise it fails with `DuplicateUnitNumber` whenever a
record with the candidate's `unitNumber` exists; in either failure case
the store is returned unchanged. -/
theorem create_duplicate_precedence (store : List Listing) (newId : Nat)
    (c : ListingInput) :
    ((∃ l ∈ store, l.unitName = c.unitName) →
      createRoute store newId c = (store, CreateResult.duplicateUnitName)) ∧
    ((∀ l ∈ store, l.unitName ≠ c.unitName) →
      (∃ l ∈ store, l.unitNumber = c.unitNumber) →
      createRoute store newId c = (store, CreateResult.duplicateUnitNumber)) := by
  constructor
  · intro h
    have hany : store.any (fun l => l.unitName == c.unitName) = true := by
      rw [List.any_eq_true]
      obtain ⟨l, hl, he⟩ := h
      exact ⟨l, hl, by simp [he]⟩
    unfold createRoute
    rw [if_pos hany]
  · intro hname hnum
    have h1 : store.any (fun l => l.unitName == c.unitName) = false := by
      apply any_eq_false_of_forall
      intro l hl
      simp [hname l hl]
    have h2 : store.any (fun l => l.unitNumber == c.unitNumber) = true := by
      rw [List.any_eq_true]
      obtain ⟨l, hl, he⟩ := hnum
      exact ⟨l, hl, by simp [he]⟩
    unfold createRoute
    rw [if_neg (by simp [h1]), if_pos h2]

/-- Witness for C5: creating `clashName` against a store holding
`sampleA` hits the `unitName` check; creating `clashNumber` hits the
`unitNumber` check; both leave the store as it was. -/
theorem create_duplicate_precedence_witness :
    createRoute [sampleA.toDoc 7] 8 clashName =
      ([sampleA.toDoc 7], CreateResult.duplicateUnitName) ∧
    createRoute [sampleA.toDoc 7] 8 clashNumber =
      ([sampleA.toDoc 7], CreateResult.duplicateUnitNumber) :=
  ⟨(create_duplicate_precedence [sampleA.toDoc 7] 8 clashName).1
      ⟨sampleA.toDoc 7, by decide, by decide⟩,
   (create_duplicate_precedence [sampleA.toDoc 7] 8 clashNumber).2
      (by decide) ⟨sampleA.toDoc 7, by decide, by decide⟩⟩

/-- **C9**: `updateById` on an id matching no record answers `NotFound`
and returns the store unchanged. -/
theorem update_missing_id_notFound (store : List Listing) (id : Nat)
    (f : ListingInput) (h : ∀ l ∈ store, l._id ≠ id) :
    updateRoute store id f = (store, UpdateResult.notFound) := by
  have hany : store.any (fun l => l._id == id) = false := by
    apply any_eq_false_of_forall
    intro l hl
    simp [h l hl]
  unfold updateRoute
  rw [if_neg (by simp [hany])]

/-- Witness for C9: updating id 3 in a store holding only id 7. -/
theorem update_missing_id_notFound_witness :
    updateRoute [sampleA.toDoc 7] 3 sampleB =
      ([sampleA.toDoc 7], UpdateResult.notFound) :=
  update_missing_id_notFound [sampleA.toDoc 7] 3 sampleB (by decide)

/-- **C1**: the claim says every successful create assigns `updatedAt`
and every successful `updateById` refreshes it.  The code does neither:
`listingSchema` declares no `updatedAt` path and no `timestamps`
option, and neither route's write mentions it — after a successful
create and a successful update the persisted record still has no
`updatedAt`, even though the query route sorts by it and documents it
in its example response. -/
theorem create_and_update_never_set_updatedAt :
    (createRoute [] 7 sampleA).2 = CreateResult.ok 7 ∧
    ((createRoute [] 7 sampleA).1.map (fun l => l.updatedAt) = [none]) ∧
    (updateRoute (createRoute [] 7 sampleA).1 7 sampleB).2 = UpdateResult.ok 7 ∧
    ((updateRoute (createRoute [] 7 sampleA).1 7 sampleB).1.map
        (fun l => l.updatedAt) = [none]) := by
  decide

theorem takeWhile_of_all {p : Char → Bool} :
    ∀ (l : List Char), l.all p = true → l.takeWhile p = l
  | [], _ => rfl
  | c :: cs, h => by
      simp only [List.all_cons, Bool.and_eq_true] at h
      simp [List.takeWhile_cons, h.1, takeWhile_of_all cs h.2]

theorem dropWhile_of_all {p : Char → Bool} :
    ∀ (l : List Char), l.all p = true → l.dropWhile p = []
  | [], _ => rfl
  | c :: cs, h => by
      simp only [List.all_cons, Bool.and_eq_true] at h
      simp [List.dropWhile_cons, h.1, dropWhile_of_all cs h.2]

theorem jsUnsignedDec_of_digits {r : List Char} (h : allDigits r = true) :
    jsUnsignedDec r = true := by
  unfold allDigits at h
  rw [Bool.and_eq_true] at h
  have hall : r.all Char.isDigit = true := h.2
  have hne : r.isEmpty = false := by simpa using h.1
  unfold jsUnsignedDec
  by_cases hinf : (r == "Infinity".data) = true
  · rw [if_pos hinf]
  · rw [if_neg hinf]
    rw [dropWhile_of_all r hall, takeWhile_of_all r hall]
    simp [hne]

theorem digits_of_ite_some {r : List Char} {x : Int} {n : Int}
    (h : (if allDigits r = true then some x else none) = some n) :
    allDigits r = true := by
  by_cases hc : allDigits r = true
  · exact hc
  · rw [if_neg hc] at h
    exact absurd h (by simp)

theorem jsIntVal_numeric {l : List Char} {n : Int} (h : jsIntVal l = some n) :
    jsIsNumericString l = true := by
  cases l with
  | nil => simp [jsIntVal] at h
  | cons c r =>
    simp only [jsIntVal] at h
    unfold jsIsNumericString
    simp only [jsSignedDec]
    by_cases hp : (c == '+') = true
    · rw [if_pos hp] at h
      rw [if_pos hp, jsUnsignedDec_of_digits (digits_of_ite_some h)]
      simp
    · rw [if_neg hp] at h
      rw [if_neg hp]
      by_cases hm : (c == '-') = true
      · rw [if_pos hm] at h
        rw [if_pos hm, jsUnsignedDec_of_digits (digits_of_ite_some h)]
        simp
      · rw [if_neg hm] at h
        rw [if_neg hm, jsUnsignedDec_of_digits (digits_of_ite_some h)]
        simp

/-- **C10**: any `order` value other than the exact string `"asc"` —
`"ASC"`, `"ascending"`, an arbitrary string, or an absent field — makes
`data.order === 'asc'` false, so the query behaves exactly as with
`order = "desc"`; there is no validation branch that could reject the
request. -/
theorem nonAsc_order_treated_desc (q : QueryInput) (store : List Listing)
    (h : q.order ≠ some "asc") :
    runQuery q store = runQuery { q with order := some "desc" } store := by
  have h1 : isAsc q = false := by
    unfold isAsc
    exact beq_eq_false_iff_ne.mpr h
  have h2 : isAsc { q with order := some "desc" } = false := rfl
  unfold runQuery
  rw [h1, h2]
  rfl

/-- Witness for C10: `order = "ASC"` is treated as descending. -/
theorem nonAsc_order_treated_desc_witness :
    runQuery { emptyQuery with order := some "ASC" } [sampleA.toDoc 7] =
      runQuery { { emptyQuery with order := some "ASC" } with
        order := some "desc" } [sampleA.toDoc 7] :=
  nonAsc_order_treated_desc { emptyQuery with order := some "ASC" }
    [sampleA.toDoc 7] (by decide)

/-- **C8**: an absent, empty, or all-whitespace `searchTerm` applies no
text filter: the query behaves exactly as if `searchTerm` were absent,
leaving only the `userId`/`listingId` filters. -/
theorem blank_searchTerm_no_text_filter (q : QueryInput) (store : List Listing)
    (h : q.searchTerm = none ∨ ∃ s, q.searchTerm = some s ∧ jsTrim s = "") :
    runQuery q store = runQuery { q with searchTerm := none } store := by
  have hs : ∀ l, searchCond q l = true := by
    intro l
    unfold searchCond
    rcases h with h | ⟨s, hse, ht⟩
    · rw [h]
    · rw [hse]
      simp [ht]
  have hm : ∀ l ∈ store,
      matchesQuery q l = matchesQuery { q with searchTerm := none } l := by
    intro l _
    unfold matchesQuery
    rw [hs l]
    rfl
  unfold runQuery
  rw [List.filter_congr hm]
  rfl

/-- Witness for C8: a whitespace-only term behaves as no term. -/
theorem blank_searchTerm_no_text_filter_witness :
    runQuery { emptyQuery with searchTerm := some "   " } [sampleA.toDoc 7] =
      runQuery { { emptyQuery with searchTerm := some "   " } with
        searchTerm := none } [sampleA.toDoc 7] :=
  blank_searchTerm_no_text_filter { emptyQuery with searchTerm := some "   " }
    [sampleA.toDoc 7] (Or.inr ⟨"   ", rfl, by decide⟩)

theorem regexMatchesPrefix_no_dot :
    ∀ (pat s : List Char), '.' ∉ pat →
      regexMatchesPrefix pat s = pat.isPrefixOf (s.map Char.toLower)
  | [], s, _ => by simp [regexMatchesPrefix]
  | p :: ps, [], _ => by simp [regexMatchesPrefix, List.isPrefixOf]
  | p :: ps, c :: cs, h => by
      have hp : p ≠ '.' := fun he => h (he ▸ List.mem_cons_self p ps)
      have hps : '.' ∉ ps := fun hm => h (List.mem_cons_of_mem _ hm)
      show (regexCharMatch p c && regexMatchesPrefix ps cs)
        = ((p == c.toLower) && ps.isPrefixOf (cs.map Char.toLower))
      rw [regexMatchesPrefix_no_dot ps cs hps]
      unfold regexCharMatch
      rw [show (p == '.') = false from beq_eq_false_iff_ne.mpr hp]
      rw [Bool.false_or]

theorem regexFindIn_no_dot :
    ∀ (pat s : List Char), '.' ∉ pat →
      regexFindIn pat s = substrFindIn pat (s.map Char.toLower)
  | pat, [], h => by
      show regexMatchesPrefix pat [] = pat.isPrefixOf ([] : List Char)
      simpa using regexMatchesPrefix_no_dot pat [] h
  | pat, c :: cs, h => by
      show (regexMatchesPrefix pat (c :: cs) || regexFindIn pat cs)
        = (pat.isPrefixOf ((c :: cs).map Char.toLower)
            || substrFindIn pat (cs.map Char.toLower))
      rw [regexMatchesPrefix_no_dot pat (c :: cs) h,
        regexFindIn_no_dot pat cs h]

/-- **C4 (amended)**: for a trimmed, non-empty, non-numeric term free
of regex metacharacters, the filter is exactly case-insensitive literal
substring containment on `projectName` or `unitName`.  (The term is
interpreted as a regular expression by `$regex`, so a term containing a
metacharacter — see the counterexample — can match records that do not
contain it literally; the claim's "iff substring" reading only survives
for metacharacter-free terms.) -/
theorem plain_text_search_is_ci_substring (q : QueryInput) (s : String)
    (l : Listing) (hq : q.searchTerm = some s) (hne : jsTrim s ≠ "")
    (hnum : jsIsNumericString (jsTrim s).data = false)
    (hmeta : ∀ ch ∈ (jsTrim s).data, ch ∉ regexMetaChars) :
    searchCond q l =
      (containsCI (jsTrim s) l.projectName
        || containsCI (jsTrim s) l.unitName) := by
  have hdot : '.' ∉ (jsToLower (jsTrim s)).data := by
    intro hmem
    unfold jsToLower at hmem
    simp only [List.mem_map] at hmem
    obtain ⟨ch, hch, he⟩ := hmem
    have hchd : ch ≠ '.' :=
      fun e => (hmeta ch hch) (e ▸ (by decide : ('.' : Char) ∈ regexMetaChars))
    exact toLower_ne_dot ch hchd he
  simp only [searchCond, hq]
  rw [if_neg (by simp [hne])]
  simp only [textFilter]
  rw [if_neg (by simp [hnum])]
  rw [regexFindIn_no_dot _ _ hdot, regexFindIn_no_dot _ _ hdot]
  rfl

/-- Witness for C4 (amended): the metacharacter-free term
`" Sunrise "` (trimming to `"Sunrise"`) filters exactly by
case-insensitive substring containment. -/
theorem plain_text_search_is_ci_substring_witness :
    searchCond { emptyQuery with searchTerm := some " Sunrise " }
        (sampleA.toDoc 7) =
      (containsCI (jsTrim " Sunrise ") (sampleA.toDoc 7).projectName
        || containsCI (jsTrim " Sunrise ") (sampleA.toDoc 7).unitName) :=
  plain_text_search_is_ci_substring
    { emptyQuery with searchTerm := some " Sunrise " } " Sunrise "
    (sampleA.toDoc 7) rfl (by decide) (by decide) (by decide)

/-- **C4 (counterexample)**: the claim as stated — filter satisfied iff
`projectName` or `unitName` contains the term as a case-insensitive
substring — is false for the term `"."`: `"."` is not numeric
(`Number(".")` is `NaN`), is passed to `$regex` as a pattern, and as the
regex wildcard matches `sampleA` even though neither field contains a
literal `"."`; the record is returned. -/
theorem dot_searchTerm_regex_counterexample :
    searchCond { emptyQuery with searchTerm := some "." } (sampleA.toDoc 7)
        = true ∧
    containsCI "." (sampleA.toDoc 7).projectName = false ∧
    containsCI "." (sampleA.toDoc 7).unitName = false ∧
    runQuery { emptyQuery with searchTerm := some "." } [sampleA.toDoc 7]
        = [sampleA.toDoc 7] := by
  decide

/-- **C3**: when the trimmed `searchTerm` parses entirely as a number
`n`, the search predicate is exactly `unitNumber == n` — textual
containment of the term in `projectName`/`unitName` plays no role, so a
record whose fields contain the digits but whose `unitNumber` differs
is never returned by the query. -/
theorem numeric_search_matches_unitNumber_only (q : QueryInput)
    (s : String) (n : Int) (hq : q.searchTerm = some s)
    (hne : jsTrim s ≠ "") (hn : jsIntVal (jsTrim s).data = some n) :
    (∀ l : Listing, searchCond q l = (l.unitNumber == n)) ∧
    (∀ store : List Listing, ∀ l ∈ runQuery q store, l.unitNumber = n) := by
  have hpred : ∀ l : Listing, searchCond q l = (l.unitNumber == n) := by
    intro l
    simp only [searchCond, hq]
    rw [if_neg (by simp [hne])]
    simp only [textFilter]
    rw [if_pos (jsIntVal_numeric hn), hn]
  refine ⟨hpred, ?_⟩
  intro store l hl
  unfold runQuery at hl
  have h1 := List.mem_of_mem_take hl
  have h2 := List.mem_of_mem_drop h1
  have h3 : l ∈ store.filter (matchesQuery q) :=
    (List.mem_insertionSort _).mp h2
  have h4 := (List.mem_filter.mp h3).2
  unfold matchesQuery at h4
  rw [Bool.and_eq_true, Bool.and_eq_true] at h4
  have h5 := h4.2
  rw [hpred l] at h5
  exact eq_of_beq h5

/-- Witness for C3: the term `" 101 "` (trimming to the numeric
`"101"`) matches exactly on `unitNumber = 101`; `sampleB` (unit number
202, name "Unit B") would not pass the predicate even if its text
contained "101". -/
theorem numeric_search_matches_unitNumber_only_witness :
    searchCond { emptyQuery with searchTerm := some " 101 " }
        (sampleA.toDoc 7) = ((sampleA.toDoc 7).unitNumber == 101) ∧
    searchCond { emptyQuery with searchTerm := some " 101 " }
        (sampleB.toDoc 8) = ((sampleB.toDoc 8).unitNumber == 101) :=
  ⟨(numeric_search_matches_unitNumber_only
      { emptyQuery with searchTerm := some " 101 " } " 101 " 101 rfl
      (by decide) (by decide)).1 (sampleA.toDoc 7),
   (numeric_search_matches_unitNumber_only
      { emptyQuery with searchTerm := some " 101 " } " 101 " 101 rfl
      (by decide) (by decide)).1 (sampleB.toDoc 8)⟩

/-- **C6**: query results are always sorted by `updatedAt` — under
`order = "asc"` consecutive results are non-decreasing in the
`updatedAt` key (a missing key ordering as null, before every
timestamp), and under `order = "desc"` or an absent `order` they are
non-increasing. -/
theorem runQuery_sorted_by_updatedAt (q : QueryInput) (store : List Listing) :
    (q.order = some "asc" →
      (runQuery q store).Pairwise
        (fun a b => updLe a.updatedAt b.updatedAt = true)) ∧
    ((q.order = some "desc" ∨ q.order = none) →
      (runQuery q store).Pairwise
        (fun a b => updLe b.updatedAt a.updatedAt = true)) := by
  have hsub : (runQuery q store).Sublist
      (List.insertionSort (sortRel (isAsc q))
        (store.filter (matchesQuery q))) := by
    unfold runQuery
    exact (List.take_sublist _ _).trans (List.drop_sublist _ _)
  have hsorted := List.sorted_insertionSort (sortRel (isAsc q))
    (store.filter (matchesQuery q))
  have hp : (runQuery q store).Pairwise (sortRel (isAsc q)) :=
    List.Pairwise.sublist hsub hsorted
  constructor
  · intro h
    have ha : isAsc q = true := by
      unfold isAsc
      rw [h]
      rfl
    rw [ha] at hp
    exact hp
  · intro h
    have ha : isAsc q = false := by
      unfold isAsc
      rcases h with h | h
      · rw [h]
        rfl
      · rw [h]
        rfl
    rw [ha] at hp
    exact hp

/-- Witness for C6: a concrete ascending query over records carrying
distinct `updatedAt` keys comes back in non-decreasing key order. -/
theorem runQuery_sorted_by_updatedAt_witness :
    (runQuery { emptyQuery with order := some "asc" }
        [{ sampleA.toDoc 1 with updatedAt := some 5 },
         { sampleB.toDoc 2 with updatedAt := some 3 }]).Pairwise
      (fun a b => updLe a.updatedAt b.updatedAt = true) :=
  (runQuery_sorted_by_updatedAt { emptyQuery with order := some "asc" }
    [{ sampleA.toDoc 1 with updatedAt := some 5 },
     { sampleB.toDoc 2 with updatedAt := some 3 }]).1 rfl

/-- **C7**: the returned page is obtained from the full sorted sequence
of matching records by skipping `startIndex` records (0 when absent)
and taking at most `limit` records (9 when absent) of the remainder, in
order.  The spec constrains a supplied `limit` to be a positive
integer; the hypothesis records that constraint (the route's
`parseInt(data.limit) || 9` would silently turn a supplied 0 into 9). -/
theorem runQuery_pagination (q : QueryInput) (store : List Listing)
    (hlim : ∀ m, q.limit = some m → 0 < m) :
    runQuery q store =
      ((List.insertionSort (sortRel (isAsc q))
          (store.filter (matchesQuery q))).drop
        (q.startIndex.getD 0)).take (q.limit.getD 9) := by
  have hs : effStartIndex q = q.startIndex.getD 0 := by
    rcases hx : q.startIndex with _ | m
    · simp [effStartIndex, hx]
    · simp [effStartIndex, hx]
  have hl : effLimit q = q.limit.getD 9 := by
    rcases hx : q.limit with _ | m
    · simp [effLimit, hx]
    · rcases m with _ | m
      · exact absurd (hlim 0 hx) (by decide)
      · simp [effLimit, hx]
  unfold runQuery
  rw [hs, hl]

/-- Witness for C7: `startIndex = 1`, `limit = 2` over a three-record
store returns the slice after dropping one record. -/
theorem runQuery_pagination_witness :
    runQuery { emptyQuery with startIndex := some 1, limit := some 2 }
        [sampleA.toDoc 1, sampleB.toDoc 2, clashName.toDoc 3] =
      ((List.insertionSort
          (sortRel (isAsc { emptyQuery with
            startIndex := some 1, limit := some 2 }))
          ([sampleA.toDoc 1, sampleB.toDoc 2, clashName.toDoc 3].filter
            (matchesQuery { emptyQuery with
              startIndex := some 1, limit := some 2 }))).drop 1).take 2 :=
  runQuery_pagination
    { emptyQuery with startIndex := some 1, limit := some 2 }
    [sampleA.toDoc 1, sampleB.toDoc 2, clashName.toDoc 3]
    (fun m hm => by cases hm; decide)

/-- **C2 (amended)**: a successful create (no duplicate `unitName` or
`unitNumber` in the store, fresh id) followed by a query for the
returned id yields exactly the created record, equal to the candidate
in all 13 supplied fields and carrying the returned id — but with no
`updatedAt` value, since the schema never stores one. -/
theorem create_findById_roundtrip (store : List Listing) (newId : Nat)
    (c : ListingInput) (hfresh : ∀ l ∈ store, l._id ≠ newId)
    (hname : ∀ l ∈ store, l.unitName ≠ c.unitName)
    (hnum : ∀ l ∈ store, l.unitNumber ≠ c.unitNumber) :
    (createRoute store newId c).2 = CreateResult.ok newId ∧
    runQuery { emptyQuery with listingId := some newId }
        (createRoute store newId c).1 = [c.toDoc newId] ∧
    (c.toDoc newId)._id = newId ∧
    (c.toDoc newId).projectName = c.projectName ∧
    (c.toDoc newId).unitName = c.unitName ∧
    (c.toDoc newId).unitNumber = c.unitNumber ∧
    (c.toDoc newId).description = c.description ∧
    (c.toDoc newId).address = c.address ∧
    (c.toDoc newId).sell = c.sell ∧
    (c.toDoc newId).rent = c.rent ∧
    (c.toDoc newId).parkingSpot = c.parkingSpot ∧
    (c.toDoc newId).furnished = c.furnished ∧
    (c.toDoc newId).offer = c.offer ∧
    (c.toDoc newId).beds = c.beds ∧
    (c.toDoc newId).baths = c.baths ∧
    (c.toDoc newId).regularPrice = c.regularPrice ∧
    (c.toDoc newId).updatedAt = none := by
  have hcreate : createRoute store newId c =
      (store ++ [c.toDoc newId], CreateResult.ok newId) := by
    have h1 : store.any (fun l => l.unitName == c.unitName) = false := by
      apply any_eq_false_of_forall
      intro l hl
      simp [hname l hl]
    have h2 : store.any (fun l => l.unitNumber == c.unitNumber) = false := by
      apply any_eq_false_of_forall
      intro l hl
      simp [hnum l hl]
    unfold createRoute
    rw [if_neg (by simp [h1]), if_neg (by simp [h2])]
  rw [hcreate]
  refine ⟨rfl, ?_, rfl, rfl, rfl, rfl, rfl, rfl, rfl, rfl, rfl, rfl, rfl,
    rfl, rfl, rfl, rfl⟩
  have hfilter : (store ++ [c.toDoc newId]).filter
      (matchesQuery { emptyQuery with listingId := some newId })
        = [c.toDoc newId] := by
    rw [List.filter_append]
    have hnil : store.filter
        (matchesQuery { emptyQuery with listingId := some newId }) = [] := by
      rw [List.filter_eq_nil_iff]
      intro l hl
      unfold matchesQuery listingIdCond
      simp [beq_eq_false_iff_ne.mpr (hfresh l hl)]
    have hone : [c.toDoc newId].filter
        (matchesQuery { emptyQuery with listingId := some newId })
          = [c.toDoc newId] := by
      simp [List.filter, matchesQuery, listingIdCond, userCond, searchCond,
        emptyQuery, ListingInput.toDoc]
    rw [hnil, hone, List.nil_append]
  unfold runQuery
  rw [hfilter]
  rfl

/-- Witness for C2 (amended): the concrete round trip for `sampleA`
on an empty store. -/
theorem create_findById_roundtrip_witness :
    (createRoute [] 7 sampleA).2 = CreateResult.ok 7 ∧
    runQuery { emptyQuery with listingId := some 7 }
        (createRoute [] 7 sampleA).1 = [sampleA.toDoc 7] ∧
    (sampleA.toDoc 7)._id = 7 ∧
    (sampleA.toDoc 7).projectName = sampleA.projectName ∧
    (sampleA.toDoc 7).unitName = sampleA.unitName ∧
    (sampleA.toDoc 7).unitNumber = sampleA.unitNumber ∧
    (sampleA.toDoc 7).description = sampleA.description ∧
    (sampleA.toDoc 7).address = sampleA.address ∧
    (sampleA.toDoc 7).sell = sampleA.sell ∧
    (sampleA.toDoc 7).rent = sampleA.rent ∧
    (sampleA.toDoc 7).parkingSpot = sampleA.parkingSpot ∧
    (sampleA.toDoc 7).furnished = sampleA.furnished ∧
    (sampleA.toDoc 7).offer = sampleA.offer ∧
    (sampleA.toDoc 7).beds = sampleA.beds ∧
    (sampleA.toDoc 7).baths = sampleA.baths ∧
    (sampleA.toDoc 7).regularPrice = sampleA.regularPrice ∧
    (sampleA.toDoc 7).updatedAt = none :=
  create_findById_roundtrip [] 7 sampleA (by decide) (by decide) (by decide)

/-- **C2 (counterexample)**: the claim as stated also promises a
*populated* `updatedAt` on the fetched record; the fetched record of
the concrete round trip has none. -/
theorem create_roundtrip_updatedAt_missing :
    runQuery { emptyQuery with listingId := some 7 }
        (createRoute [] 7 sampleA).1 = [sampleA.toDoc 7] ∧
    (sampleA.toDoc 7).updatedAt = none := by
  decide
